import Mathlib

/-!
Shallow embedding of the event/handler dispatch model of `ignite`
(`src/ignite/engine/events.py`) and of the Horovod computation-model stubs
(`src/ignite/distributed/comp_models/horovod.py`), together with theorems
settling the specification claims about them.

Conventions of the embedding:
* Python exceptions are modelled by `Except PyErr`.
* Python `None`-able arguments are modelled by `Option`.
* Python `int` is modelled by `Int` (Python integers are unbounded); the
  `isinstance(x, numbers.Integral)` checks of the source are therefore
  satisfied by construction and only the numeric comparison remains.
* An attribute that may be unset (`_name_` is only assigned when a name is
  given) is modelled by an `Option` field; reading it through the
  `DynamicClassAttribute` accessor raises `AttributeError` when it is unset.
-/

/-- Python exceptions raised by the embedded code. -/
inductive PyErr where
  | valueError (msg : String)
  | typeError (msg : String)
  | attributeError
  | notImplementedError (msg : String)
deriving DecidableEq, Repr

/-- Modelled from the spec: the training engine (`ignite.engine.engine.Engine`,
whose sources are not part of this excerpt).  The spec describes it as the
object that fires events through a handler registry ("Handler: user callback
registered against one or more events"), so it is modelled as a registry of
(event name, handler) pairs; handlers are identified by a `Nat` token.  Event
names are the `_name_` attribute of the registered event (an `Option String`,
matching the event embedding below). -/
structure Engine where
  handlers : List (Option String × Nat)
deriving DecidableEq, Repr

/-- An event filter: a predicate over the engine and the current event count
(`Callable` taking `(engine, event)` in the source). -/
def EventFilter : Type := Engine → Int → Bool

/-- Class `CallableEventWithFilter` (events.py, lines 13-130): an event value with a
name and a filter.  `_value_` and `_name_` mirror the enum-compatible
attributes set by `__init__`; `_name_ = none` models the attribute being
unset (which happens when `name=None` is passed). -/
structure CallableEventWithFilter where
  _value_ : String
  filter : EventFilter
  _name_ : Option String

namespace CallableEventWithFilter

/-- The filter `default_event_filter` (events.py, lines 111-113): always `True`. -/
def default_event_filter : EventFilter := fun _engine _event => true

/-- The filter factory `every_event_filter` (events.py, lines 93-100): `True` iff
`event % every == 0`.  (Python `%` and Lean `Int.emod` agree on whether the
remainder is zero.) -/
def every_event_filter (every : Int) : EventFilter :=
  fun _engine event => if event % every = 0 then true else false

/-- The filter factory `once_event_filter` (events.py, lines 102-109): `True` iff
`event == once`. -/
def once_event_filter (once : Int) : EventFilter :=
  fun _engine event => if event = once then true else false

/-- Constructor `__init__` (events.py, lines 26-35): stores the filter (defaulting to
`default_event_filter` when `None` is given); on a fresh object `_value_` is
always assigned, and `_name_` is assigned exactly when a name is given. -/
def init (value : String) (event_filter : Option EventFilter) (name : Option String) :
    CallableEventWithFilter :=
  { _value_ := value
    filter := event_filter.getD default_event_filter
    _name_ := name }

/-- The `name` accessor (events.py, lines 38-41): returns `self._name_`,
raising `AttributeError` when the attribute was never set. -/
def name (self : CallableEventWithFilter) : Except PyErr String :=
  match self._name_ with
  | some n => Except.ok n
  | none => Except.error PyErr.attributeError

/-- The `value` accessor (events.py, lines 43-46): returns `self._value_`
(always set on the objects of this embedding, as `__init__` assigns it). -/
def value (self : CallableEventWithFilter) : String :=
  self._value_

/-- Modelled from the spec: `_check_signature` (imported from
`ignite.engine.utils`, whose sources are not part of this excerpt) validates
that `event_filter` can be called with the arguments `engine` and `event`.
The spec defines an event filter as exactly such a predicate ("a predicate
over (engine, event-count)"), so every `EventFilter` of the embedding passes
the check. -/
def _check_signature (_f : EventFilter) : Except PyErr Unit :=
  Except.ok ()

/-- Method `__call__` (events.py, lines 48-91).  The multiplicity gate is the chained
XOR of the source (line 65); `event_filter` is always callable in this
embedding so the `TypeError` branch (line 68) is unreachable; the
`isinstance(_, numbers.Integral)` parts of the `every`/`once` validations hold
by construction, leaving the positivity tests; `every == 1` drops back to the
default filter; `once` overwrites the filter computed so far; the final
constructor call reads `self.value` and `self.name` (the latter raising
`AttributeError` when `_name_` is unset). -/
def call (self : CallableEventWithFilter) (event_filter : Option EventFilter)
    (every : Option Int) (once : Option Int) :
    Except PyErr CallableEventWithFilter :=
  if ¬ (Bool.xor (Bool.xor event_filter.isSome every.isSome) once.isSome) then
    Except.error (PyErr.valueError "Only one of the input arguments should be specified")
  else if (match every with | some n => decide (n ≤ 0) | none => false) then
    Except.error (PyErr.valueError "Argument every should be integer and greater than zero")
  else if (match once with | some n => decide (n ≤ 0) | none => false) then
    Except.error (PyErr.valueError "Argument every should be integer and positive")
  else
    let event_filter : Option EventFilter :=
      match every with
      | some n => if n = 1 then none else some (every_event_filter n)
      | none => event_filter
    let event_filter : Option EventFilter :=
      match once with
      | some n => some (once_event_filter n)
      | none => event_filter
    match (match event_filter with
           | some f => _check_signature f
           | none => Except.ok ()) with
    | Except.error e => Except.error e
    | Except.ok () =>
      match self.name with
      | Except.error e => Except.error e
      | Except.ok nm => Except.ok (init self.value event_filter (some nm))

/-- The right-hand side of `__eq__` (events.py, lines 118-124): either another
event or a string (any other type raises `NotImplementedError` in the source
and is outside this embedding). -/
inductive EqArg where
  | event : CallableEventWithFilter → EqArg
  | str : String → EqArg

/-- Method `__eq__` (events.py, lines 118-124): compares names only (reading `.name`
raises `AttributeError` when unset); against a string, compares the string to
the name. -/
def eq (self : CallableEventWithFilter) (other : EqArg) : Except PyErr Bool :=
  match other with
  | EqArg.event o => do
    let n1 ← self.name
    let n2 ← o.name
    pure (n1 == n2)
  | EqArg.str s => do
    let n1 ← self.name
    pure (n1 == s)

/-- Method `__hash__` (events.py, lines 126-127): `hash(self._name_)`, a function of
the name alone (reading the unset attribute raises `AttributeError`). -/
def hashAttr (self : CallableEventWithFilter) : Except PyErr UInt64 :=
  match self._name_ with
  | some n => Except.ok n.hash
  | none => Except.error PyErr.attributeError

end CallableEventWithFilter

/-- Class `EventsList` (events.py, lines 240-283): a collection of events stacked by
`__or__`. -/
structure EventsList where
  _events : List CallableEventWithFilter

namespace EventsList

/-- Constructor `EventsList.__init__` (events.py, lines 264-265): the empty collection. -/
def empty : EventsList := { _events := [] }

/-- Method `_append` (events.py, lines 267-270): the argument is an event by typing
in this embedding, so the `TypeError` branch is unreachable; appends it. -/
def append (self : EventsList) (event : CallableEventWithFilter) : EventsList :=
  { _events := self._events ++ [event] }

/-- Method `EventsList.__or__` (events.py, lines 281-283): appends and returns the
collection. -/
def or (self : EventsList) (other : CallableEventWithFilter) : EventsList :=
  self.append other

/-- Method `__getitem__` (events.py, lines 272-273), at a (non-negative) index. -/
def getItem (self : EventsList) (item : Nat) : Option CallableEventWithFilter :=
  self._events[item]?

/-- Method `__len__` (events.py, lines 278-279). -/
def length (self : EventsList) : Nat :=
  self._events.length

end EventsList

namespace CallableEventWithFilter

/-- Method `CallableEventWithFilter.__or__` / `Events.__or__` (events.py, lines
129-130 and 236-237): `EventsList() | self | other`. -/
def or (self other : CallableEventWithFilter) : EventsList :=
  (EventsList.empty.or self).or other

/-- The n-ary expression `e1 | e2 | ... | en` (`n ≥ 2`): the first `|` is
`CallableEventWithFilter.__or__`, every further one is `EventsList.__or__`
since the left operand is by then an `EventsList`. -/
def orAll (e1 e2 : CallableEventWithFilter) (rest : List CallableEventWithFilter) :
    EventsList :=
  rest.foldl EventsList.or (e1.or e2)

end CallableEventWithFilter

namespace Events

/-- Member `Events.ITERATION_STARTED` (events.py, line 225): enum member, default
filter. -/
def ITERATION_STARTED : CallableEventWithFilter :=
  CallableEventWithFilter.init "iteration_started" none (some "ITERATION_STARTED")

/-- Member `Events.STARTED` (events.py, line 222). -/
def STARTED : CallableEventWithFilter :=
  CallableEventWithFilter.init "started" none (some "STARTED")

/-- Member `Events.COMPLETED` (events.py, line 223). -/
def COMPLETED : CallableEventWithFilter :=
  CallableEventWithFilter.init "completed" none (some "COMPLETED")

/-- Member `Events.EPOCH_COMPLETED` (events.py, line 220). -/
def EPOCH_COMPLETED : CallableEventWithFilter :=
  CallableEventWithFilter.init "epoch_completed" none (some "EPOCH_COMPLETED")

end Events

namespace Engine

/-- Modelled from the spec: `Engine.has_event_handler` (from
`ignite.engine.engine`, not part of this excerpt), used by
`RemovableEventHandle.remove`: whether the handler is currently registered on
the engine for the given event. -/
def has_event_handler (self : Engine) (handler : Nat)
    (event : CallableEventWithFilter) : Bool :=
  self.handlers.any fun p => p.1 == event._name_ && p.2 == handler

/-- Modelled from the spec: `Engine.remove_event_handler` (from
`ignite.engine.engine`, not part of this excerpt): deregisters the handler
from the given event. -/
def remove_event_handler (self : Engine) (handler : Nat)
    (event : CallableEventWithFilter) : Engine :=
  { handlers := self.handlers.filter fun p => !(p.1 == event._name_ && p.2 == handler) }

end Engine

/-- The `event_name` argument of `RemovableEventHandle` (events.py, line 382):
a single event or an `EventsList`. -/
inductive EventNameArg where
  | single : CallableEventWithFilter → EventNameArg
  | list : EventsList → EventNameArg

/-- Class `RemovableEventHandle` (events.py, lines 353-401).  The weak references to
the handler and to the engine are modelled by the value they dereference to at
`remove()` time: `none` when the referent has been garbage-collected. -/
structure RemovableEventHandle where
  event_name : EventNameArg
  handler : Option Nat
  engine : Option Engine

namespace RemovableEventHandle

/-- Method `RemovableEventHandle.remove` (events.py, lines 387-401): dereferences
both weak references, returns with no effect when either is dead; otherwise
removes the handler — for each event of an `EventsList`, or for the single
registered event — guarded by `has_event_handler`.  The result is the engine
after the call (`none` when the engine was dead). -/
def remove (self : RemovableEventHandle) : Option Engine :=
  match self.handler, self.engine with
  | none, _ => self.engine
  | _, none => self.engine
  | some handler, some engine =>
    match self.event_name with
    | EventNameArg.list lst =>
      some (lst._events.foldl
        (fun eng e =>
          if eng.has_event_handler handler e then eng.remove_event_handler handler e
          else eng)
        engine)
    | EventNameArg.single e =>
      some (if engine.has_event_handler handler e then
              engine.remove_event_handler handler e
            else engine)

/-- The event names the handle was registered against (the key of each
deregistration). -/
def eventKeys (self : RemovableEventHandle) : List (Option String) :=
  match self.event_name with
  | EventNameArg.single e => [e._name_]
  | EventNameArg.list lst => lst._events.map (fun e => e._name_)

end RemovableEventHandle

/-- A stand-in for `torch.Tensor` (an external collaborator: "the
tensor/array runtime" is out of scope per the spec); its content is
irrelevant to the claims. -/
structure Tensor where
  data : List Int
deriving DecidableEq, Repr

/-- Class `_HorovodDistModel` (horovod.py, lines 21-158): the state visible in the
excerpted sources is the backend string and the local rank (the inherited
attributes live in `comp_models.base`, an external collaborator here). -/
structure _HorovodDistModel where
  _backend : String
  _local_rank : Int
deriving DecidableEq, Repr

namespace _HorovodDistModel

/-- Method `_do_all_reduce` (horovod.py, lines 139-145): immediately raises
`NotImplementedError("TODO")`; the pair returns the (unchanged) model state
alongside the raised exception. -/
def _do_all_reduce (self : _HorovodDistModel) (_tensor : Tensor) (_op : String) :
    Except PyErr Tensor × _HorovodDistModel :=
  (Except.error (PyErr.notImplementedError "TODO"), self)

/-- Method `_do_all_gather` (horovod.py, lines 147-153): immediately raises
`NotImplementedError("TODO")`. -/
def _do_all_gather (self : _HorovodDistModel) (_tensor : Tensor) :
    Except PyErr Tensor × _HorovodDistModel :=
  (Except.error (PyErr.notImplementedError "TODO"), self)

end _HorovodDistModel

/-! ## Helper lemmas about `__call__` -/

namespace CallableEventWithFilter

/-- Closed form of `__call__` when only `every` is given (and positive): the
result carries the default filter for `every == 1` and the every-filter
otherwise, with the value and name of the receiver. -/
theorem call_every_eq (self : CallableEventWithFilter) (n : String) (h : self._name_ = some n)
    (N : Int) (hN : 0 < N) :
    self.call none (some N) none =
      Except.ok (init self.value
        (if N = 1 then none else some (every_event_filter N)) (some n)) := by
  rcases eq_or_ne N 1 with h1 | h1
  · subst h1
    simp [call, name, h, _check_signature]
  · simp [call, name, h, not_le.mpr hN, _check_signature, h1]

/-- Closed form of `__call__` when only `once` is given (and positive). -/
theorem call_once_eq (self : CallableEventWithFilter) (n : String) (h : self._name_ = some n)
    (N : Int) (hN : 0 < N) :
    self.call none none (some N) =
      Except.ok (init self.value (some (once_event_filter N)) (some n)) := by
  simp [call, name, h, not_le.mpr hN, _check_signature]

/-- Closed form of `__call__` when only `event_filter` is given. -/
theorem call_filter_eq (self : CallableEventWithFilter) (n : String) (h : self._name_ = some n)
    (f : EventFilter) :
    self.call (some f) none none = Except.ok (init self.value (some f) (some n)) := by
  simp [call, name, h, _check_signature]

/-- Whenever `__call__` returns normally, the returned event has the same
`_name_` and the same `_value_` as the receiver. -/
theorem call_ok_attrs (self d : CallableEventWithFilter) (ef : Option EventFilter)
    (every once : Option Int) (hd : self.call ef every once = Except.ok d) :
    d._name_ = self._name_ ∧ d._value_ = self._value_ := by
  cases hx : self._name_ with
  | none =>
    exfalso
    rcases ef with _ | f <;> rcases every with _ | N <;> rcases once with _ | M <;>
        simp [call, name, hx, _check_signature] at hd <;>
        split at hd <;> simp_all <;> split at hd <;> simp_all
  | some n =>
    rcases ef with _ | f <;> rcases every with _ | N <;> rcases once with _ | M <;>
        simp [call, name, hx, _check_signature] at hd
    all_goals (repeat' split at hd)
    all_goals cases hd
    all_goals exact ⟨rfl, rfl⟩

end CallableEventWithFilter

/-! ## Helper lemmas about `|`-chains and handler removal -/

/-- Folding `EventsList.__or__` over a list of events appends them in order. -/
theorem foldl_or_events (l : List CallableEventWithFilter) (acc : EventsList) :
    (l.foldl EventsList.or acc)._events = acc._events ++ l := by
  induction l generalizing acc with
  | nil => simp
  | cons a t ih => simp [EventsList.or, EventsList.append, ih]

/-- The `has_event_handler` guard in `RemovableEventHandle.remove` is
redundant: removing an unregistered handler is a no-op, so the guarded step
equals unconditional removal. -/
theorem remove_guard_eq (eng : Engine) (h : Nat) (e : CallableEventWithFilter) :
    (if eng.has_event_handler h e then eng.remove_event_handler h e else eng) =
      eng.remove_event_handler h e := by
  rcases eng with ⟨l⟩
  by_cases hhas : Engine.has_event_handler ⟨l⟩ h e
  · simp [hhas]
  · simp only [hhas, if_false, Bool.false_eq_true]
    unfold Engine.remove_event_handler
    congr 1
    symm
    apply List.filter_eq_self.mpr
    intro p hp
    have hpf : ¬ (p.1 == e._name_ && p.2 == h) = true := by
      intro hc
      exact hhas (List.any_eq_true.mpr ⟨p, hp, hc⟩)
    simp only [Bool.not_eq_true] at hpf
    simp [hpf]

/-- Folding the guarded per-event removal over a list of events removes
exactly the registry entries whose handler matches and whose event name is
among the listed event names. -/
theorem foldl_remove_handlers (events : List CallableEventWithFilter) (h : Nat) (eng : Engine) :
    (events.foldl
      (fun acc e =>
        if acc.has_event_handler h e then acc.remove_event_handler h e else acc)
      eng).handlers =
    eng.handlers.filter
      (fun p => !(p.2 == h && decide (p.1 ∈ events.map (fun e => e._name_)))) := by
  induction events generalizing eng with
  | nil => simp
  | cons a t ih =>
    rw [List.foldl_cons, remove_guard_eq, ih]
    unfold Engine.remove_event_handler
    simp only [List.filter_filter]
    apply List.filter_congr
    intro p hp
    by_cases hm : p.1 = a._name_ <;>
      by_cases hc : p.1 ∈ t.map (fun e => e._name_) <;>
      by_cases hh2 : p.2 = h <;>
      simp [hm, hc, hh2]

/-! ## Claim theorems -/

open CallableEventWithFilter in
/-- C1: for every positive integer `N`, calling a (named) base event with
`every=N` returns an event whose filter, for every engine and every integer
event-count, returns `True` iff the event-count is divisible by `N`. -/
theorem every_filter_fires_iff_divisible (self : CallableEventWithFilter) (n : String)
    (h : self._name_ = some n) (N : Int) (hN : 0 < N) :
    ∃ d, self.call none (some N) none = Except.ok d ∧
      ∀ (engine : Engine) (event : Int), d.filter engine event = true ↔ N ∣ event := by
  refine ⟨_, call_every_eq self n h N hN, ?_⟩
  intro engine event
  rcases eq_or_ne N 1 with h1 | h1
  · subst h1
    simp [init, default_event_filter]
  · simp [init, h1, every_event_filter]

open CallableEventWithFilter in
/-- Witness for C1: `Events.ITERATION_STARTED(every=3)` fires exactly on
multiples of 3. -/
theorem every_filter_fires_iff_divisible_witness :
    ∃ d, Events.ITERATION_STARTED.call none (some 3) none = Except.ok d ∧
      ∀ (engine : Engine) (event : Int), d.filter engine event = true ↔ (3 : Int) ∣ event :=
  every_filter_fires_iff_divisible Events.ITERATION_STARTED "ITERATION_STARTED" rfl 3
    (by decide)

open CallableEventWithFilter in
/-- C2: for every positive integer `N`, calling a (named) base event with
`once=N` returns an event whose filter, for every engine and every integer
event-count, returns `True` iff the event-count equals `N`. -/
theorem once_filter_fires_iff_equal (self : CallableEventWithFilter) (n : String)
    (h : self._name_ = some n) (N : Int) (hN : 0 < N) :
    ∃ d, self.call none none (some N) = Except.ok d ∧
      ∀ (engine : Engine) (event : Int), d.filter engine event = true ↔ event = N := by
  refine ⟨_, call_once_eq self n h N hN, ?_⟩
  intro engine event
  simp [init, once_event_filter]

open CallableEventWithFilter in
/-- Witness for C2: `Events.ITERATION_STARTED(once=50)` fires exactly at
event-count 50. -/
theorem once_filter_fires_iff_equal_witness :
    ∃ d, Events.ITERATION_STARTED.call none none (some 50) = Except.ok d ∧
      ∀ (engine : Engine) (event : Int), d.filter engine event = true ↔ event = 50 :=
  once_filter_fires_iff_equal Events.ITERATION_STARTED "ITERATION_STARTED" rfl 50 (by decide)

open CallableEventWithFilter in
/-- C3 (counter-evidence): with all three of `event_filter`, `every`, `once`
specified, the chained XOR of events.py line 65 evaluates to `True`
(`True ^ True ^ True`), so no `ValueError` is raised; the call goes through
and returns a `once`-filtered event — although the source's own error message
states that only one of the input arguments should be specified. -/
theorem call_with_all_three_args_accepted :
    Events.ITERATION_STARTED.call (some CallableEventWithFilter.default_event_filter)
      (some 2) (some 3) =
    Except.ok { _value_ := "iteration_started",
                filter := CallableEventWithFilter.once_event_filter 3,
                _name_ := some "ITERATION_STARTED" } := rfl

/-- C4: the expression `e1 | e2 | ... | en` yields an `EventsList` of length
`n` whose `i`-th element, both by indexing (`__getitem__`) and by iteration
order (the underlying `_events` list), is the `i`-th operand. -/
theorem or_chain_collects_events_in_order (e1 e2 : CallableEventWithFilter)
    (rest : List CallableEventWithFilter) :
    (CallableEventWithFilter.orAll e1 e2 rest)._events = e1 :: e2 :: rest ∧
    (CallableEventWithFilter.orAll e1 e2 rest).length = rest.length + 2 ∧
    ∀ i : Nat, (CallableEventWithFilter.orAll e1 e2 rest).getItem i =
      (e1 :: e2 :: rest)[i]? := by
  have hev : (CallableEventWithFilter.orAll e1 e2 rest)._events = e1 :: e2 :: rest := by
    simp [CallableEventWithFilter.orAll, foldl_or_events, CallableEventWithFilter.or,
      EventsList.or, EventsList.append, EventsList.empty]
  refine ⟨hev, ?_, ?_⟩
  · simp [EventsList.length, hev]
  · intro i
    simp [EventsList.getItem, hev]

/-- C5: `RemovableEventHandle.remove` leaves the engine unchanged when the
weakly referenced handler or engine has been collected; when both are alive
it deregisters the handler exactly for the event names it was registered
against (a single event, or each event of an `EventsList`), keeping every
other registry entry. -/
theorem removable_handle_remove_spec (self : RemovableEventHandle) :
    ((self.handler = none ∨ self.engine = none) → self.remove = self.engine) ∧
    (∀ (h : Nat) (eng : Engine), self.handler = some h → self.engine = some eng →
      ∃ res, self.remove = some res ∧
        res.handlers = eng.handlers.filter
          (fun p => !(p.2 == h && decide (p.1 ∈ self.eventKeys)))) := by
  constructor
  · rintro (hh | he)
    · simp [RemovableEventHandle.remove, hh]
    · rcases hh : self.handler with _ | h
      · simp [RemovableEventHandle.remove, hh, he]
      · simp [RemovableEventHandle.remove, hh, he]
  · intro h eng hh he
    rcases hev : self.event_name with e | lst
    · refine ⟨Engine.remove_event_handler eng h e, ?_, ?_⟩
      · simp [RemovableEventHandle.remove, hh, he, hev, remove_guard_eq]
      · unfold Engine.remove_event_handler
        apply List.filter_congr
        intro p hp
        simp [RemovableEventHandle.eventKeys, hev]
        by_cases hm : p.1 = e._name_ <;> by_cases hh2 : p.2 = h <;> simp [hm, hh2]
    · refine ⟨lst._events.foldl
          (fun acc e =>
            if acc.has_event_handler h e then acc.remove_event_handler h e else acc)
          eng, ?_, ?_⟩
      · simp [RemovableEventHandle.remove, hh, he, hev]
      · rw [foldl_remove_handlers]
        apply List.filter_congr
        intro p hp
        simp [RemovableEventHandle.eventKeys, hev]

/-- Witness for C5: a dead handler weakref leaves the engine unchanged, and a
live handle removes the handler from its registered event only. -/
theorem removable_handle_remove_spec_witness :
    (RemovableEventHandle.remove
      { event_name := EventNameArg.single Events.ITERATION_STARTED,
        handler := none,
        engine := some { handlers := [(some "STARTED", 1)] } } =
      some { handlers := [(some "STARTED", 1)] }) ∧
    (∃ res,
      RemovableEventHandle.remove
        { event_name := EventNameArg.single Events.ITERATION_STARTED,
          handler := some 7,
          engine := some { handlers :=
            [(some "ITERATION_STARTED", 7), (some "STARTED", 7),
             (some "ITERATION_STARTED", 8)] } } = some res ∧
      res.handlers =
        [(some "ITERATION_STARTED", 7), (some "STARTED", 7),
         (some "ITERATION_STARTED", 8)].filter
          (fun p => !(p.2 == 7 && decide (p.1 ∈ RemovableEventHandle.eventKeys
            { event_name := EventNameArg.single Events.ITERATION_STARTED,
              handler := some 7,
              engine := some { handlers :=
                [(some "ITERATION_STARTED", 7), (some "STARTED", 7),
                 (some "ITERATION_STARTED", 8)] } })))) :=
  ⟨(removable_handle_remove_spec _).1 (Or.inl rfl),
   (removable_handle_remove_spec _).2 7 _ rfl rfl⟩

open CallableEventWithFilter in
/-- C6: calling a (named) event with `every=1` returns an event carrying the
default filter (events.py lines 78-80 drop back to `event_filter = None`),
and that filter agrees with `every_event_filter(1)` on every engine and every
integer event-count (both always return `True`). -/
theorem every_one_is_default_filter (self : CallableEventWithFilter) (n : String)
    (h : self._name_ = some n) :
    ∃ d, self.call none (some 1) none = Except.ok d ∧
      d.filter = default_event_filter ∧
      ∀ (engine : Engine) (event : Int),
        d.filter engine event = every_event_filter 1 engine event := by
  refine ⟨_, call_every_eq self n h 1 (by decide), rfl, ?_⟩
  intro engine event
  simp [init, default_event_filter, every_event_filter]

open CallableEventWithFilter in
/-- Witness for C6 at `Events.ITERATION_STARTED`. -/
theorem every_one_is_default_filter_witness :
    ∃ d, Events.ITERATION_STARTED.call none (some 1) none = Except.ok d ∧
      d.filter = default_event_filter ∧
      ∀ (engine : Engine) (event : Int),
        d.filter engine event = every_event_filter 1 engine event :=
  every_one_is_default_filter Events.ITERATION_STARTED "ITERATION_STARTED" rfl

open CallableEventWithFilter in
/-- C7: calling a (named) event with a callable `event_filter` (and `every`
and `once` unspecified) returns an event whose filter is exactly that
callable and whose `_value_` and `_name_` equal those of the original
event. -/
theorem call_with_event_filter_keeps_filter_value_name (self : CallableEventWithFilter)
    (f : EventFilter) (n : String) (h : self._name_ = some n) :
    ∃ d, self.call (some f) none none = Except.ok d ∧
      d.filter = f ∧ d._value_ = self._value_ ∧ d._name_ = self._name_ :=
  ⟨_, call_filter_eq self n h f, rfl, rfl, by simp [init, h]⟩

open CallableEventWithFilter in
/-- Witness for C7 at `Events.ITERATION_STARTED` with a concrete filter. -/
theorem call_with_event_filter_keeps_filter_value_name_witness :
    ∃ d, Events.ITERATION_STARTED.call (some default_event_filter) none none = Except.ok d ∧
      d.filter = default_event_filter ∧
      d._value_ = Events.ITERATION_STARTED._value_ ∧
      d._name_ = Events.ITERATION_STARTED._name_ :=
  call_with_event_filter_keeps_filter_value_name Events.ITERATION_STARTED
    default_event_filter "ITERATION_STARTED" rfl

/-- C8: `_do_all_reduce` and `_do_all_gather` raise `NotImplementedError` for
every tensor input (and every op string) and leave the model state
unchanged. -/
theorem horovod_collectives_not_implemented (self : _HorovodDistModel) (tensor : Tensor)
    (op : String) :
    self._do_all_reduce tensor op =
      (Except.error (PyErr.notImplementedError "TODO"), self) ∧
    self._do_all_gather tensor =
      (Except.error (PyErr.notImplementedError "TODO"), self) :=
  ⟨rfl, rfl⟩

open CallableEventWithFilter in
/-- C9: equality of events depends only on the name (`a == b` iff the names
are equal; comparison with a string compares the string to the name); equal
names yield equal hashes; and any filtered derivative produced by `__call__`
compares equal to, and hashes identically to, its base event. -/
theorem eq_hash_depend_only_on_name (a b : CallableEventWithFilter) (na nb : String)
    (ha : a._name_ = some na) (hb : b._name_ = some nb) (s : String)
    (ef : Option EventFilter) (every once : Option Int) (d : CallableEventWithFilter)
    (hd : a.call ef every once = Except.ok d) :
    (a.eq (EqArg.event b) = Except.ok true ↔ na = nb) ∧
    (a.eq (EqArg.str s) = Except.ok (na == s)) ∧
    (na = nb → a.hashAttr = b.hashAttr) ∧
    d.eq (EqArg.event a) = Except.ok true ∧
    d.hashAttr = a.hashAttr := by
  have hattr := call_ok_attrs a d ef every once hd
  refine ⟨?_, ?_, ?_, ?_, ?_⟩
  · simp [eq, name, ha, hb, Bind.bind, Except.bind, Pure.pure, Except.pure, beq_iff_eq]
  · simp [eq, name, ha, Bind.bind, Except.bind, Pure.pure, Except.pure]
  · intro hnn
    simp [hashAttr, ha, hb, hnn]
  · simp [eq, name, hattr.1, ha, Bind.bind, Except.bind, Pure.pure, Except.pure]
  · simp [hashAttr, hattr.1, ha]

open CallableEventWithFilter in
/-- Witness for C9: `ITERATION_STARTED` vs `STARTED` and a filtered
derivative of `ITERATION_STARTED`. -/
theorem eq_hash_depend_only_on_name_witness :
    (Events.ITERATION_STARTED.eq (EqArg.event Events.STARTED) = Except.ok true ↔
      ("ITERATION_STARTED" : String) = "STARTED") ∧
    (Events.ITERATION_STARTED.eq (EqArg.str "ITERATION_STARTED") =
      Except.ok (("ITERATION_STARTED" : String) == "ITERATION_STARTED")) ∧
    (("ITERATION_STARTED" : String) = "STARTED" →
      Events.ITERATION_STARTED.hashAttr = Events.STARTED.hashAttr) ∧
    CallableEventWithFilter.eq
      { _value_ := "iteration_started", filter := default_event_filter,
        _name_ := some "ITERATION_STARTED" }
      (EqArg.event Events.ITERATION_STARTED) = Except.ok true ∧
    CallableEventWithFilter.hashAttr
      { _value_ := "iteration_started", filter := default_event_filter,
        _name_ := some "ITERATION_STARTED" } = Events.ITERATION_STARTED.hashAttr :=
  eq_hash_depend_only_on_name Events.ITERATION_STARTED Events.STARTED
    "ITERATION_STARTED" "STARTED" rfl rfl "ITERATION_STARTED"
    (some default_event_filter) none none
    { _value_ := "iteration_started", filter := default_event_filter,
      _name_ := some "ITERATION_STARTED" } rfl

open CallableEventWithFilter in
/-- C10: calling with `every=N` (respectively `once=N`) raises `ValueError`
whenever the integer `N` is non-positive, and for positive `N` no
`ValueError` is raised (the non-integer case is a Python dynamic-typing
matter outside this embedding, where the arguments are integers by type). -/
theorem every_once_positivity_validation (self : CallableEventWithFilter) (N : Int) :
    (N ≤ 0 → self.call none (some N) none =
      Except.error
        (PyErr.valueError "Argument every should be integer and greater than zero")) ∧
    (N ≤ 0 → self.call none none (some N) =
      Except.error (PyErr.valueError "Argument every should be integer and positive")) ∧
    (0 < N → ∀ msg, self.call none (some N) none ≠ Except.error (PyErr.valueError msg)) ∧
    (0 < N → ∀ msg, self.call none none (some N) ≠ Except.error (PyErr.valueError msg)) := by
  refine ⟨?_, ?_, ?_, ?_⟩
  · intro hN
    simp [call, hN]
  · intro hN
    simp [call, hN]
  · intro hN msg
    cases hx : self._name_ with
    | none =>
      rcases eq_or_ne N 1 with h1 | h1
      · subst h1
        simp [call, name, hx, _check_signature]
      · simp [call, name, hx, not_le.mpr hN, _check_signature, h1]
    | some nm =>
      rw [call_every_eq self nm hx N hN]
      simp
  · intro hN msg
    cases hx : self._name_ with
    | none =>
      simp [call, name, hx, not_le.mpr hN, _check_signature]
    | some nm =>
      rw [call_once_eq self nm hx N hN]
      simp

open CallableEventWithFilter in
/-- Witness for C10: `every=0` and `once=0` raise `ValueError`; `every=5` and
`once=5` do not raise the multiplicity `ValueError`. -/
theorem every_once_positivity_validation_witness :
    (Events.ITERATION_STARTED.call none (some 0) none =
      Except.error
        (PyErr.valueError "Argument every should be integer and greater than zero")) ∧
    (Events.ITERATION_STARTED.call none none (some 0) =
      Except.error (PyErr.valueError "Argument every should be integer and positive")) ∧
    (Events.ITERATION_STARTED.call none (some 5) none ≠
      Except.error
        (PyErr.valueError "Only one of the input arguments should be specified")) ∧
    (Events.ITERATION_STARTED.call none none (some 5) ≠
      Except.error
        (PyErr.valueError "Only one of the input arguments should be specified")) :=
  ⟨(every_once_positivity_validation Events.ITERATION_STARTED 0).1 (by decide),
   (every_once_positivity_validation Events.ITERATION_STARTED 0).2.1 (by decide),
   (every_once_positivity_validation Events.ITERATION_STARTED 5).2.2.1 (by decide)
     "Only one of the input arguments should be specified",
   (every_once_positivity_validation Events.ITERATION_STARTED 5).2.2.2 (by decide)
     "Only one of the input arguments should be specified"⟩
